import Mathlib

/-!
Verification development for the fraud-detection service wrapper: a shallow
embedding of `src/core/fraud_model.py` (artifact download, model construction,
`predict`), `src/api/routes/fraud_detection.py` (the `POST /detect` handler)
and `src/utils/config.py` (the `AIConfig` settings class), together with
theorems about the service's observable behaviour.

Numeric feature values and probabilities are modelled as rationals: the
claims under study concern counts, order, thresholding and control flow,
none of which depend on float32 rounding.
-/

namespace FraudSpec

/-- A feature row: an ordered sequence of numeric features (the source casts
to float32; rationals model the numeric values). -/
abbrev Row : Type := List ℚ

/-- A feature batch: an ordered sequence of rows, as passed to `predict`. -/
abbrev Batch : Type := List Row

/-- The opaque serving layer of a loaded artifact: per input row it emits one
probability-like scalar (the single unit of the model's `dense_7` output).
The artifact is an external black box, so the map from a row to its emitted
probability is a parameter of the embedding. -/
abbrev ServingLayer : Type := Row → ℚ

/-- Embedding of `self.model.predict(features, verbose=0)` for the model
`keras.Sequential([keras.layers.Input(shape=(30,)), keras.layers.TFSMLayer(...)])`
built in `FraudDetectionModel`: the fixed input shape `(30,)` rejects any
batch containing a row that does not have exactly 30 features (the raised
shape error is modelled as `none`); on success the `dense_7` output holds,
per input row, a single-element row with that row's probability. -/
def kerasModelPredict (m : ServingLayer) (x : Batch) : Option (List (List ℚ)) :=
  if x.all (fun r => r.length == 30) then some (x.map (fun r => [m r])) else none

namespace FraudDetectionModel

/-- Embedding of `FraudDetectionModel.predict` (src/src/core/fraud_model.py):
`probabilities = self.model.predict(features, verbose=0)`, then
`list_prob = probabilities["dense_7"][0].tolist()` — the `[0]` indexes the
first row of the output array (an `IndexError` on an empty output is `none`) —
then `[1 if prob > ai_config.FRAUD_THRESHOLD else 0 for prob in list_prob]`. -/
def predict (m : ServingLayer) (FRAUD_THRESHOLD : ℚ) (features : Batch) :
    Option (List ℤ) :=
  match kerasModelPredict m features with
  | none => none
  | some probabilities =>
    match probabilities.head? with
    | none => none
    | some list_prob =>
      some (list_prob.map (fun prob => if FRAUD_THRESHOLD < prob then 1 else 0))

end FraudDetectionModel

/-- Embedding of `np.array(request.features).astype("float32")` in the route:
a ragged list of rows (rows of unequal lengths) yields an object-dtype array
whose `astype` raises (modelled as `none`); a rectangular list of rows
converts to the same rows of numbers. -/
def np_array_astype (features : List (List ℚ)) : Option Batch :=
  if features.all (fun r => r.length == (features.headD []).length) then
    some features
  else
    none

/-- Observable outcome of one `POST /detect` request: a 200 response carrying
the `result` list, or an `HTTPException` with a status code and a `detail`
string (serialized by the framework as a JSON body with a `detail` field). -/
inductive DetectResult where
  | ok (result : List ℤ)
  | httpError (status_code : ℕ) (detail : String)
deriving DecidableEq

/-- Abstract `str(e)` for an exception raised by the numpy conversion step. -/
def conversionErrorDetail : String := "could not convert features to float32"

/-- Abstract `str(e)` for an exception raised inside `predict`. -/
def inferenceErrorDetail : String := "inference failed"

/-- Embedding of the `detect_fraud` handler
(src/src/api/routes/fraud_detection.py): inside the `try` block it converts the
request features with numpy, calls `fraud_model.predict`, and wraps the result
in `FraudDetectionResponse(result=...)`; any exception `e` is caught and
re-raised as `HTTPException(status_code=500, detail=str(e))`. -/
def detect_fraud (m : ServingLayer) (FRAUD_THRESHOLD : ℚ)
    (features : List (List ℚ)) : DetectResult :=
  match np_array_astype features with
  | none => .httpError 500 conversionErrorDetail
  | some input_data =>
    match FraudDetectionModel.predict m FRAUD_THRESHOLD input_data with
    | none => .httpError 500 inferenceErrorDetail
    | some result => .ok result

/-- Whether the `try` block of the handler raises on the given request: true
exactly when the numpy conversion or the inference call fails. -/
def detectRaises (m : ServingLayer) (FRAUD_THRESHOLD : ℚ)
    (features : List (List ℚ)) : Bool :=
  match np_array_astype features with
  | none => true
  | some input_data =>
    (FraudDetectionModel.predict m FRAUD_THRESHOLD input_data).isNone

/-- The process-wide loaded handle together with the configured threshold, as
read (never written) by the `predict` method through `self.model` and
`ai_config.FRAUD_THRESHOLD`. -/
structure LoadedModelState where
  model : ServingLayer
  FRAUD_THRESHOLD : ℚ

/-- A call of the `predict` method on the shared loaded handle, state-passing:
the method body only reads `self.model` and the config threshold and assigns
to neither, so the state is returned unchanged alongside the result. -/
def FraudDetectionModel.predictCall (st : LoadedModelState) (features : Batch) :
    LoadedModelState × Option (List ℤ) :=
  (st, FraudDetectionModel.predict st.model st.FRAUD_THRESHOLD features)

/-- Contents of the local model directory: the set of artifact files present. -/
structure ArtifactDir where
  files : List String
deriving DecidableEq

/-- The fixed allow-list passed to `snapshot_download` in `_download_model`. -/
def allow_patterns : List String :=
  ["saved_model.pb", "variables/*", "assets/*", "keras_metadata.pb"]

/-- Hub-style allow-pattern matching, specialised to the shapes appearing in
`allow_patterns`: a pattern ending in "/*" matches any file under that
directory by name prefix, any other pattern matches by exact file name.
Implemented on character lists so it evaluates by kernel reduction. -/
def matchesPattern (p f : String) : Bool :=
  if p.toList.reverse.take 2 == ['*', '/'] then
    f.toList.take (p.toList.length - 1) == p.toList.take (p.toList.length - 1)
  else
    f.toList == p.toList

/-- Embedding of `snapshot_download(repo_id=..., repo_type="model",
local_dir=..., allow_patterns=[...])`: the remote registry (assumed available
at startup, per the spec's collaborator contract) delivers exactly the
repository files matching the allow-list into the local directory. The remote
repository's file listing is the `remoteFiles` parameter. -/
def snapshot_download (remoteFiles : List String) : ArtifactDir :=
  ⟨remoteFiles.filter (fun f => allow_patterns.any (fun p => matchesPattern p f))⟩

/-- State seen by the loader: `self.model` (an `H`-handle or `None`) and the
local path's contents (`none` when the path does not exist on disk). -/
structure LoadState (H : Type) where
  model : Option H
  localDir : Option ArtifactDir

/-- Side-effect trace of one `load_model` run: how many times `shutil.rmtree`
ran on the local path, how many times `snapshot_download` was invoked, and how
many construction attempts (`initialize_model` calls) were made. -/
structure Trace where
  rmtreeCalls : ℕ
  downloadCalls : ℕ
  initCalls : ℕ
deriving DecidableEq

/-- How `load_model` terminates: normal return, the `RuntimeError("Model
failed to load.")` raised by the `finally` guard, or some other in-flight
exception propagating past a non-firing `finally` guard. -/
inductive LoadOutcome where
  | ok
  | raisedRuntimeError
  | raisedOther
deriving DecidableEq

/-- Result of a `load_model` run: final state, termination mode, and trace. -/
structure LoadRun (H : Type) where
  finalState : LoadState H
  outcome : LoadOutcome
  trace : Trace

/-- Embedding of `FraudDetectionModel._download_model`: when the local path
exists, `shutil.rmtree` removes it (one wipe); then `snapshot_download`
re-fetches the allow-listed artifact files into the path. Returns the new
state and the side-effect trace of this call. -/
def download_model (remoteFiles : List String) {H : Type} (st : LoadState H) :
    LoadState H × Trace :=
  (⟨st.model, some (snapshot_download remoteFiles)⟩,
   ⟨if st.localDir.isSome then 1 else 0, 1, 0⟩)

/-- Embedding of `FraudDetectionModel.initialize_model`: construct the keras
wrapper from whatever is at the local path. The external runtime's
construction semantics is the `build` parameter (which directory contents
yield a usable handle). Success assigns `self.model`; failure raises (the
`true` flag), leaving `self.model` unchanged. -/
def init_model {H : Type} (build : Option ArtifactDir → Option H)
    (st : LoadState H) : LoadState H × Bool :=
  match build st.localDir with
  | some hdl => (⟨some hdl, st.localDir⟩, false)
  | none => (st, true)

/-- Embedding of `FraudDetectionModel.load_model`: `try initialize_model`;
on any exception, `_download_model` then `initialize_model` again; `finally`,
if `self.model is None`, raise `RuntimeError("Model failed to load.")`
(replacing any in-flight exception). When the retried construction raised but
the `finally` guard does not fire, the in-flight exception propagates
(`raisedOther`). -/
def load_model {H : Type} (build : Option ArtifactDir → Option H)
    (remoteFiles : List String) (st : LoadState H) : LoadRun H :=
  let a1 := init_model build st
  if a1.2 then
    let dl := download_model remoteFiles a1.1
    let a2 := init_model build dl.1
    if a2.1.model.isNone then
      ⟨a2.1, .raisedRuntimeError, ⟨dl.2.rmtreeCalls, dl.2.downloadCalls, 2⟩⟩
    else if a2.2 then
      ⟨a2.1, .raisedOther, ⟨dl.2.rmtreeCalls, dl.2.downloadCalls, 2⟩⟩
    else
      ⟨a2.1, .ok, ⟨dl.2.rmtreeCalls, dl.2.downloadCalls, 2⟩⟩
  else
    ⟨a1.1, .ok, ⟨0, 0, 1⟩⟩

/-- Environment as seen by `os.getenv` in `src/src/utils/config.py` (after
`load_dotenv`): each required setting is present (`some`) or absent (`none`). -/
structure PyEnv where
  FRAUD_MODEL_LOCAL_PATH : Option String
  FRAUD_MODEL_REPO_ID : Option String
  FRAUD_THRESHOLD : Option String
  HOST : Option String
  PORT : Option String
deriving DecidableEq

/-- The Python exception kinds the config module can raise while evaluating
its class body: `float(None)` / `int(None)` raise `TypeError`, an unparsable
numeric string raises `ValueError`. -/
inductive PyError where
  | typeError
  | valueError
deriving DecidableEq

/-- The constructed `ai_config` object. The three string-typed settings keep
whatever `os.getenv` returned — possibly `None` — because pydantic does not
validate field defaults. -/
structure AIConfig where
  FRAUD_MODEL_LOCAL_PATH : Option String
  FRAUD_MODEL_REPO_ID : Option String
  FRAUD_THRESHOLD : ℚ
  HOST : Option String
  PORT : ℤ
deriving DecidableEq

/-- Python `float(x)` applied to an optional string: `float(None)` raises
`TypeError`; a string that is not a numeric literal raises `ValueError`.
`parse` is the numeric-literal reading, left abstract. -/
def pyFloat (parse : String → Option ℚ) : Option String → Except PyError ℚ
  | none => .error .typeError
  | some s =>
    match parse s with
    | none => .error .valueError
    | some q => .ok q

/-- Python `int(x)` applied to an optional string, analogous to `pyFloat`. -/
def pyInt (parse : String → Option ℤ) : Option String → Except PyError ℤ
  | none => .error .typeError
  | some s =>
    match parse s with
    | none => .error .valueError
    | some n => .ok n

/-- Embedding of defining class `AIConfig` and constructing
`ai_config = AIConfig()` (src/src/utils/config.py). The class body evaluates
`os.getenv` for each setting in source order and applies `float` to
`FRAUD_THRESHOLD` and `int` to `PORT`, so a missing or unparsable value raises
right there; the string-typed settings keep the raw `os.getenv` result
(possibly `None`) as the field default, and `AIConfig()` uses unvalidated
defaults for settings absent from the environment, so it succeeds with a
`None` value for an absent string setting. -/
def loadAIConfig (parseF : String → Option ℚ) (parseI : String → Option ℤ)
    (env : PyEnv) : Except PyError AIConfig :=
  match pyFloat parseF env.FRAUD_THRESHOLD with
  | .error e => .error e
  | .ok thr =>
    match pyInt parseI env.PORT with
    | .error e => .error e
    | .ok port =>
      .ok ⟨env.FRAUD_MODEL_LOCAL_PATH, env.FRAUD_MODEL_REPO_ID, thr,
        env.HOST, port⟩

/-- A concrete serving layer for witnesses: the emitted probability is the
row's first feature. -/
def cmodel : ServingLayer := fun r => r.headD 0

/-- A concrete configured threshold for witnesses. -/
def half : ℚ := 1 / 2

/-- A well-formed 30-feature row of ones (probability 1 under `cmodel`). -/
def row_a : Row := List.replicate 30 1

/-- A well-formed 30-feature row of zeros (probability 0 under `cmodel`). -/
def row_b : Row := List.replicate 30 0

/-- A malformed row with 2 features instead of 30. -/
def wrongRow : Row := [0, 0]

/-- A concrete remote repository listing for witnesses. -/
def wRemoteFiles : List String :=
  ["saved_model.pb", "variables/variables.index", "README.md"]

/-- A concrete construction semantics for witnesses: construction succeeds
exactly when the local path exists. -/
def wbuild : Option ArtifactDir → Option ℕ :=
  fun d => if d.isSome then some 7 else none

/-- A concrete construction semantics for witnesses that always succeeds. -/
def wbuildOk : Option ArtifactDir → Option ℕ := fun _ => some 5

/-- Fresh loader state: no handle, local path absent. -/
def wst0 : LoadState ℕ := ⟨none, none⟩

/-- Loader state with a pre-existing local directory and no handle yet. -/
def wstDir : LoadState ℕ := ⟨none, some ⟨["garbage"]⟩⟩

/-- A concrete float-literal reading for witnesses. -/
def pf0 : String → Option ℚ := fun s => if s = "0.5" then some half else none

/-- A concrete int-literal reading for witnesses. -/
def pi0 : String → Option ℤ := fun s => if s = "8000" then some 8000 else none

/-- An environment missing only the string setting `FRAUD_MODEL_LOCAL_PATH`. -/
def envMissingPath : PyEnv :=
  ⟨none, some "kietna/fraud-model", some "0.5", some "0.0.0.0", some "8000"⟩

/-- An environment missing only the numeric setting `FRAUD_THRESHOLD`. -/
def envNoThreshold : PyEnv :=
  ⟨some "models/fraud", some "kietna/fraud-model", none, some "0.0.0.0",
   some "8000"⟩

/-- On a single well-shaped row, `predict` returns exactly the thresholded
label of the probability the serving layer emits for that row. -/
theorem predict_single_row (m : ServingLayer) (t : ℚ) (r : Row)
    (h : r.length = 30) :
    FraudDetectionModel.predict m t [r] = some [if t < m r then 1 else 0] := by
  simp [FraudDetectionModel.predict, kerasModelPredict, h]

/-- Claim C1, behaviour of the code at the failing input: on a well-formed
batch of 2 rows of 30 features, `predict` returns a single label — the first
row's — instead of 2 labels, because `probabilities["dense_7"][0]` keeps only
row 0 of the batched output. -/
theorem c1_predict_drops_rows_after_first :
    row_a.length = 30 ∧ row_b.length = 30 ∧
    FraudDetectionModel.predict cmodel 0 [row_a, row_b] = some [1] := by
  decide

/-- Claim C2: when the first construction attempt fails, `load_model` calls
`_download_model` exactly once (one recursive delete when the local path
exists, then one re-download of the allow-listed snapshot), retries
construction exactly once (two attempts in total), ends `ok` exactly when the
retried construction yields a handle, raises `RuntimeError` when it does not,
and never terminates normally with the handle unset. -/
theorem c2_load_model_single_wipe_refetch {H : Type}
    (build : Option ArtifactDir → Option H) (remoteFiles : List String)
    (st : LoadState H) (hm : st.model = none)
    (hfail : build st.localDir = none) :
    (load_model build remoteFiles st).trace =
      ⟨if st.localDir.isSome then 1 else 0, 1, 2⟩ ∧
    (load_model build remoteFiles st).finalState.localDir =
      some (snapshot_download remoteFiles) ∧
    (load_model build remoteFiles st).finalState.model =
      build (some (snapshot_download remoteFiles)) ∧
    (build (some (snapshot_download remoteFiles)) = none →
      (load_model build remoteFiles st).outcome = .raisedRuntimeError) ∧
    (∀ hdl, build (some (snapshot_download remoteFiles)) = some hdl →
      (load_model build remoteFiles st).outcome = .ok) ∧
    ((load_model build remoteFiles st).outcome = .ok ↔
      ((load_model build remoteFiles st).finalState.model).isSome) := by
  cases hb : build (some (snapshot_download remoteFiles)) with
  | none => simp [load_model, init_model, download_model, hfail, hm, hb]
  | some hdl => simp [load_model, init_model, download_model, hfail, hm, hb]

/-- Witness for C2: on a fresh state with an absent local path and a build
that succeeds only once the path exists, `load_model` performs no delete, one
download, two construction attempts, and succeeds. -/
theorem c2_witness :
    (load_model wbuild wRemoteFiles wst0).trace = ⟨0, 1, 2⟩ ∧
    (load_model wbuild wRemoteFiles wst0).outcome = .ok := by
  have h := c2_load_model_single_wipe_refetch wbuild wRemoteFiles wst0 rfl rfl
  exact ⟨h.1, h.2.2.2.2.1 7 rfl⟩

/-- Claim C3: whenever the handler's try block raises — numpy conversion
failure or inference failure alike — `detect_fraud` responds with HTTP 500
and a detail string; there is no other error response class. -/
theorem c3_detect_exceptions_become_500 (m : ServingLayer) (t : ℚ)
    (features : List (List ℚ)) (h : detectRaises m t features = true) :
    ∃ d, detect_fraud m t features = .httpError 500 d := by
  cases hnp : np_array_astype features with
  | none =>
    exact ⟨conversionErrorDetail, by simp only [detect_fraud, hnp]⟩
  | some x =>
    simp only [detectRaises, hnp, Option.isNone_iff_eq_none] at h
    exact ⟨inferenceErrorDetail, by simp only [detect_fraud, hnp, h]⟩

/-- Witness for C3: a request whose single row has 1 feature instead of 30
makes the try block raise and the handler answer 500. -/
theorem c3_witness :
    ∃ d, detect_fraud cmodel half [[1]] = .httpError 500 d :=
  c3_detect_exceptions_become_500 cmodel half [[1]] (by decide)

/-- Claim C4: the label `predict` produces for an emitted probability `p` and
configured threshold `t` is 1 when `p > t` and 0 otherwise; in particular
`p = t` yields 0. -/
theorem c4_predict_threshold_boundary (m : ServingLayer) (t : ℚ) (r : Row)
    (h : r.length = 30) :
    FraudDetectionModel.predict m t [r] = some [if t < m r then 1 else 0] ∧
    (m r = t → FraudDetectionModel.predict m t [r] = some [0]) := by
  refine ⟨predict_single_row m t r h, fun he => ?_⟩
  rw [predict_single_row m t r h, he, if_neg (lt_irrefl t)]

/-- Witness for C4: a zero row under `cmodel` emits probability 0, which at
threshold 0 sits exactly on the boundary and is labelled 0. -/
theorem c4_witness :
    FraudDetectionModel.predict cmodel 0 [row_b] =
      some [if 0 < cmodel row_b then 1 else 0] ∧
    (cmodel row_b = 0 → FraudDetectionModel.predict cmodel 0 [row_b] = some [0]) :=
  c4_predict_threshold_boundary cmodel 0 row_b (by decide)

/-- Claim C5, counterexample: a `POST /detect` request with an empty batch
does not return `result: []` — the output extraction indexes row 0 of the
output, which fails on an empty batch, so the handler answers 500. -/
theorem c5_counterexample :
    detect_fraud cmodel half [] = .httpError 500 inferenceErrorDetail ∧
    detect_fraud cmodel half [] ≠ .ok [] := by
  exact ⟨rfl, fun h => nomatch h⟩

/-- Claim C5 as amended: an empty batch (`features: []`) always produces a
500 error response carrying the inference failure detail, never `result: []`. -/
theorem c5_amended_empty_batch_500 (m : ServingLayer) (t : ℚ) :
    detect_fraud m t [] = .httpError 500 inferenceErrorDetail := rfl

/-- Claim C6: a request containing a row whose length is not 30 always gets
an error response — either the numpy conversion raises (ragged batch) or the
fixed input shape rejects the batch — never a truncated or padded prediction. -/
theorem c6_wrong_length_row_errors (m : ServingLayer) (t : ℚ)
    (features : List (List ℚ)) (r : List ℚ) (hr : r ∈ features)
    (hlen : r.length ≠ 30) :
    ∃ d, detect_fraud m t features = .httpError 500 d := by
  cases hnp : np_array_astype features with
  | none =>
    exact ⟨conversionErrorDetail, by simp only [detect_fraud, hnp]⟩
  | some x =>
    have hx : x = features := by
      unfold np_array_astype at hnp
      split at hnp
      · exact (Option.some.inj hnp).symm
      · exact absurd hnp (by simp)
    subst hx
    have hall : (x.all fun row => row.length == 30) = false := by
      rcases Bool.eq_false_or_eq_true (x.all fun row => row.length == 30) with
        ht | hf
      · exact absurd (by simpa using List.all_eq_true.mp ht r hr) hlen
      · exact hf
    exact ⟨inferenceErrorDetail, by
      simp only [detect_fraud, hnp, FraudDetectionModel.predict,
        kerasModelPredict, hall, Bool.false_eq_true, if_false]⟩

/-- Witness for C6: a single row of 2 features is rejected with a 500. -/
theorem c6_witness :
    ∃ d, detect_fraud cmodel half [wrongRow] = .httpError 500 d :=
  c6_wrong_length_row_errors cmodel half [wrongRow] wrongRow (by decide)
    (by decide)

/-- Claim C7: the decision rule is monotone in the emitted probability: for
two rows whose probabilities satisfy `p1 < p2` under the same serving layer
and threshold, the label for the second is at least the label for the first. -/
theorem c7_threshold_monotone (m : ServingLayer) (t : ℚ) (r1 r2 : Row)
    (h1 : r1.length = 30) (h2 : r2.length = 30) (hp : m r1 < m r2) :
    ∃ l1 l2 : ℤ,
      FraudDetectionModel.predict m t [r1] = some [l1] ∧
      FraudDetectionModel.predict m t [r2] = some [l2] ∧ l1 ≤ l2 := by
  refine ⟨if t < m r1 then 1 else 0, if t < m r2 then 1 else 0,
    predict_single_row m t r1 h1, predict_single_row m t r2 h2, ?_⟩
  by_cases hc : t < m r1
  · simp [hc, hc.trans hp]
  · rw [if_neg hc]
    split
    · exact zero_le_one
    · exact le_rfl

/-- Witness for C7: probabilities 0 and 1 under `cmodel` at threshold 0 give
labels in the right order. -/
theorem c7_witness :
    ∃ l1 l2 : ℤ,
      FraudDetectionModel.predict cmodel 0 [row_b] = some [l1] ∧
      FraudDetectionModel.predict cmodel 0 [row_a] = some [l2] ∧ l1 ≤ l2 :=
  c7_threshold_monotone cmodel 0 row_b row_a (by decide) (by decide) (by decide)

/-- Claim C8: the `predict` method is deterministic over a loaded handle and
mutates nothing: a call leaves the shared state unchanged, and a second call
on the identical batch returns the identical result. -/
theorem c8_predict_pure_idempotent (st : LoadedModelState) (features : Batch) :
    (FraudDetectionModel.predictCall st features).1 = st ∧
    (FraudDetectionModel.predictCall
        ((FraudDetectionModel.predictCall st features).1) features).2 =
      (FraudDetectionModel.predictCall st features).2 :=
  ⟨rfl, rfl⟩

/-- Claim C9, counterexample: with `FRAUD_MODEL_LOCAL_PATH` absent from the
environment (all other settings present), constructing the configuration does
not raise — it succeeds with a `None` value for the missing string setting. -/
theorem c9_counterexample :
    envMissingPath.FRAUD_MODEL_LOCAL_PATH = none ∧
    loadAIConfig pf0 pi0 envMissingPath =
      .ok ⟨none, some "kietna/fraud-model", half, some "0.0.0.0", 8000⟩ :=
  ⟨rfl, rfl⟩

/-- Claim C9 as amended: configuration loading fails fast only for the
numeric settings — an absent `FRAUD_THRESHOLD` raises `TypeError` from
`float(None)` and an absent `PORT` can never yield a constructed config —
while the string settings fall back to an unvalidated `os.getenv` default, so
their absence never blocks construction. -/
theorem c9_amended_numeric_failfast_string_silent
    (parseF : String → Option ℚ) (parseI : String → Option ℤ) (env : PyEnv) :
    (env.FRAUD_THRESHOLD = none →
      loadAIConfig parseF parseI env = .error .typeError) ∧
    (env.PORT = none → ∀ cfg, loadAIConfig parseF parseI env ≠ .ok cfg) ∧
    (∀ ts t ps p, env.FRAUD_THRESHOLD = some ts → parseF ts = some t →
      env.PORT = some ps → parseI ps = some p →
      loadAIConfig parseF parseI env =
        .ok ⟨env.FRAUD_MODEL_LOCAL_PATH, env.FRAUD_MODEL_REPO_ID, t,
          env.HOST, p⟩) := by
  refine ⟨fun hT => ?_, fun hP cfg hok => ?_,
    fun ts t ps p hT hpt hP hpp => ?_⟩
  · simp [loadAIConfig, pyFloat, hT]
  · cases hft : pyFloat parseF env.FRAUD_THRESHOLD with
    | error e => simp [loadAIConfig, hft] at hok
    | ok thr => simp [loadAIConfig, hft, pyInt, hP] at hok
  · simp [loadAIConfig, pyFloat, pyInt, hT, hpt, hP, hpp]

/-- Witness for C9: a missing `FRAUD_THRESHOLD` raises `TypeError`, while a
missing `FRAUD_MODEL_LOCAL_PATH` still yields a constructed configuration. -/
theorem c9_witness :
    loadAIConfig pf0 pi0 envNoThreshold = .error .typeError ∧
    loadAIConfig pf0 pi0 envMissingPath =
      .ok ⟨none, some "kietna/fraud-model", half, some "0.0.0.0", 8000⟩ := by
  refine ⟨(c9_amended_numeric_failfast_string_silent pf0 pi0 envNoThreshold).1
    rfl, ?_⟩
  exact (c9_amended_numeric_failfast_string_silent pf0 pi0
    envMissingPath).2.2 "0.5" half "8000" 8000 rfl rfl rfl rfl

/-- Claim C10: when the first construction attempt succeeds, `load_model`
performs no delete and no download — zero `rmtree` calls, zero
`snapshot_download` calls, one construction attempt — and leaves the local
directory exactly as it was. -/
theorem c10_success_no_wipe_no_download {H : Type}
    (build : Option ArtifactDir → Option H) (remoteFiles : List String)
    (st : LoadState H) (hdl : H) (h : build st.localDir = some hdl) :
    load_model build remoteFiles st =
      ⟨⟨some hdl, st.localDir⟩, .ok, ⟨0, 0, 1⟩⟩ := by
  simp [load_model, init_model, h]

/-- Witness for C10: a build that succeeds on the pre-existing directory
leaves it untouched, with no download and exactly one attempt. -/
theorem c10_witness :
    load_model wbuildOk wRemoteFiles wstDir =
      ⟨⟨some 5, wstDir.localDir⟩, .ok, ⟨0, 0, 1⟩⟩ :=
  c10_success_no_wipe_no_download wbuildOk wRemoteFiles wstDir 5 rfl

end FraudSpec
